import Mathlib

/-!
Shallow embedding of the amber_scoop Vulkan capture layer
(src/third_party/vulkan_layers/amber_scoop/layer_impl.cpp).

Modelling conventions:
* Vulkan handles (VkBuffer, VkDeviceMemory, VkPipeline, ...) are natural
  numbers; 0 plays the role of VK_NULL_HANDLE / nullptr, matching the
  null-sentinel tests in the source.
* Host memory reachable through pointers returned by vkMapMemory is a byte
  function Nat -> Nat (the byte stored at an address; values are reduced
  mod 256 when read).
* The std::unordered_map registries are association lists; their insert
  keeps an existing entry for the same key, exactly like
  std::unordered_map::insert in the source.
* Failed asserts and std::map / std::unordered_map::at on a missing key are
  modelled as Except.error carrying the assert message.
* The SPIR-V disassembler and the deep-copy utilities are external to this
  file's source (out of scope per the layer's design); deep copies are
  value copies here, and a disassembled shader is represented by the raw
  code words taken from the shader-module registry.
-/

deriving instance DecidableEq for Except

namespace GraphicsfuzzAmberScoop

/-- Numeric values of the Vulkan enumerators used by layer_impl.cpp, taken
from the Vulkan headers. -/
def vkSuccess : Nat := 0

/-- VK_PIPELINE_BIND_POINT_GRAPHICS. -/
def vkPipelineBindPointGraphics : Nat := 0

/-- VK_INDEX_TYPE_UINT16. -/
def vkIndexTypeUint16 : Nat := 0

/-- VK_INDEX_TYPE_UINT32. -/
def vkIndexTypeUint32 : Nat := 1

/-- VK_SHADER_STAGE_VERTEX_BIT. -/
def vkShaderStageVertexBit : Nat := 1

/-- VK_SHADER_STAGE_FRAGMENT_BIT. -/
def vkShaderStageFragmentBit : Nat := 16

/-- VK_VERTEX_INPUT_RATE_VERTEX. -/
def vkVertexInputRateVertex : Nat := 0

/-- VK_DESCRIPTOR_TYPE_UNIFORM_BUFFER. -/
def vkDescriptorTypeUniformBuffer : Nat := 6

/-- VK_BUFFER_USAGE_INDEX_BUFFER_BIT (0x40). -/
def vkBufferUsageIndexBufferBit : Nat := 64

/-- VK_BUFFER_USAGE_VERTEX_BUFFER_BIT (0x80). -/
def vkBufferUsageVertexBufferBit : Nat := 128

/-- VK_WHOLE_SIZE, i.e. ~0ULL. -/
def vkWholeSize : Nat := 18446744073709551615

/-- Association-list lookup, the model of std::unordered_map / std::map
keyed access (count / find / at). -/
def lookupA {α : Type} : List (Nat × α) → Nat → Option α
  | [], _ => none
  | (k, v) :: rest, key => if k = key then some v else lookupA rest key

/-- Model of std::unordered_map::insert: the entry is added only when the
key is not present; an existing entry is kept unchanged. -/
def insertNoOverwrite {α : Type} (m : List (Nat × α)) (k : Nat) (v : α) :
    List (Nat × α) :=
  match lookupA m k with
  | some _ => m
  | none => m ++ [(k, v)]

/-- Byte stored at address a of the mapped host memory. -/
def byteAt (mem : Nat → Nat) (a : Nat) : Nat := mem a % 256

/-- Little-endian 16-bit unsigned read at address a, as done by
dereferencing a uint16_t pointer on the target platforms. -/
def readU16 (mem : Nat → Nat) (a : Nat) : Nat :=
  byteAt mem a + 256 * byteAt mem (a + 1)

/-- Little-endian 32-bit read at address a: the raw 4-byte word obtained by
dereferencing a float / int32_t / uint32_t pointer. -/
def readU32 (mem : Nat → Nat) (a : Nat) : Nat :=
  byteAt mem a + 256 * byteAt mem (a + 1) + 65536 * byteAt mem (a + 2) +
    16777216 * byteAt mem (a + 3)

/-- The FormatType enumeration of layer_impl.cpp. -/
inductive FormatType where
  | tInt8
  | tInt16
  | tInt32
  | tInt64
  | tUint8
  | tUint16
  | tUint32
  | tUint64
  | tFloat
  | tDouble
deriving DecidableEq

/-- The VkFormat values handled by the layer, plus a constructor for every
other (unsupported) format value. -/
inductive VkFormat where
  | r32g32b32a32Sfloat
  | r32g32b32a32Uint
  | r32g32b32a32Sint
  | r32g32b32Sfloat
  | r32g32b32Uint
  | r32g32b32Sint
  | r32g32Sfloat
  | r32g32Uint
  | r32g32Sint
  | r32Sfloat
  | r32Uint
  | r32Sint
  | unsupported (code : Nat)
deriving DecidableEq

/-- getComponentWidth: 4 for every supported format; the default branch is
assert(false), modelled as none. -/
def getComponentWidth : VkFormat → Option Nat
  | .unsupported _ => none
  | _ => some 4

/-- getComponentCount: number of components of the format; the default
branch is assert(false), modelled as none. -/
def getComponentCount : VkFormat → Option Nat
  | .r32g32b32a32Sfloat => some 4
  | .r32g32b32a32Uint => some 4
  | .r32g32b32a32Sint => some 4
  | .r32g32b32Sfloat => some 3
  | .r32g32b32Uint => some 3
  | .r32g32b32Sint => some 3
  | .r32g32Sfloat => some 2
  | .r32g32Uint => some 2
  | .r32g32Sint => some 2
  | .r32Sfloat => some 1
  | .r32Uint => some 1
  | .r32Sint => some 1
  | .unsupported _ => none

/-- getFormatTypeName: the scalar type name of the format; the default
branch is assert(false), modelled as none. -/
def getFormatTypeName : VkFormat → Option String
  | .r32g32b32a32Sfloat => some "float"
  | .r32g32b32Sfloat => some "float"
  | .r32g32Sfloat => some "float"
  | .r32Sfloat => some "float"
  | .r32g32b32a32Uint => some "uint32"
  | .r32g32b32Uint => some "uint32"
  | .r32g32Uint => some "uint32"
  | .r32Uint => some "uint32"
  | .r32g32b32a32Sint => some "int32"
  | .r32g32b32Sint => some "int32"
  | .r32g32Sint => some "int32"
  | .r32Sint => some "int32"
  | .unsupported _ => none

/-- getBufferTypeName: the Amber data type of the format, "vecN<T>" when
the component count exceeds 1, bare T otherwise. -/
def getBufferTypeName (fmt : VkFormat) : Option String :=
  match getComponentCount fmt with
  | none => none
  | some componentCount =>
    match getFormatTypeName fmt with
    | none => none
    | some tyName =>
      if componentCount = 1 then some tyName
      else some ("vec" ++ toString componentCount ++ "<" ++ tyName ++ ">")

/-- getFormatTypeCode: the FormatType of the format; the default branch is
assert(false), modelled as none. -/
def getFormatTypeCode : VkFormat → Option FormatType
  | .r32g32b32a32Sfloat => some .tFloat
  | .r32g32b32Sfloat => some .tFloat
  | .r32g32Sfloat => some .tFloat
  | .r32Sfloat => some .tFloat
  | .r32g32b32a32Uint => some .tUint32
  | .r32g32b32Uint => some .tUint32
  | .r32g32Uint => some .tUint32
  | .r32Uint => some .tUint32
  | .r32g32b32a32Sint => some .tInt32
  | .r32g32b32Sint => some .tInt32
  | .r32g32Sint => some .tInt32
  | .r32Sint => some .tInt32
  | .unsupported _ => none

/-- The topologies map of layer_impl.cpp, keyed by the numeric
VkPrimitiveTopology value. -/
def topologies : List (Nat × String) :=
  [(0, "POINT_LIST"), (1, "LINE_LIST"), (2, "LINE_STRIP"),
   (3, "TRIANGLE_LIST"), (4, "TRIANGLE_STRIP"), (5, "TRIANGLE_FAN"),
   (6, "LINE_LIST_WITH_ADJACENCY"), (7, "LINE_STRIP_WITH_ADJACENCY"),
   (8, "TRIANGLE_LIST_WITH_ADJACENCY"),
   (9, "TRIANGLE_STRIP_WITH_ADJACENCY"), (10, "PATCH_LIST")]

/-- One VkBufferCopy region of a copy command. -/
structure VkBufferCopyRegion where
  srcOffset : Nat
  dstOffset : Nat
  size : Nat
deriving DecidableEq

/-- The parts of a deep-copied VkRenderPassBeginInfo that the layer
reads back: the render pass and framebuffer handles. -/
structure VkRenderPassBeginInfo where
  renderPass : Nat
  framebuffer : Nat
deriving DecidableEq

/-- Command records captured into the per-command-buffer log.  A deep
copy of each variable-length argument array is stored; the lists below are
those deep copies, so a list's length is the recorded element count
(CopyArray copies exactly that many elements). -/
inductive Cmd where
  | beginRenderPass (renderPassBegin : VkRenderPassBeginInfo) (contents : Nat)
  | bindDescriptorSets (pipelineBindPoint : Nat) (layout : Nat)
      (firstSet : Nat) (descriptorSets : List Nat) (dynamicOffsets : List Nat)
  | bindIndexBuffer (buffer : Nat) (offset : Nat) (indexType : Nat)
  | bindPipeline (pipelineBindPoint : Nat) (pipeline : Nat)
  | bindVertexBuffers (firstBinding : Nat) (buffers : List Nat)
      (offsets : List Nat)
  | copyBuffer (srcBuffer : Nat) (dstBuffer : Nat)
      (regions : List VkBufferCopyRegion)
  | draw (vertexCount instanceCount firstVertex firstInstance : Nat)
  | drawIndexed (indexCount instanceCount firstIndex : Nat)
      (vertexOffset : Int) (firstInstance : Nat)
deriving DecidableEq

/-- A recorded buffer copy: (source, destination, regions). -/
structure BufferCopy where
  srcBuffer : Nat
  dstBuffer : Nat
  regions : List VkBufferCopyRegion
deriving DecidableEq

/-- An entry of the mappedMemory registry: the (offset, size, flags,
pointer) tuple stored by vkMapMemory. -/
structure MemoryMapEntry where
  offset : Nat
  size : Nat
  flags : Nat
  ptr : Nat
deriving DecidableEq

/-- The captured fields of VkBufferCreateInfo the layer reads back. -/
structure VkBufferCreateInfo where
  size : Nat
  usage : Nat
deriving DecidableEq

/-- One element of pVertexBindingDescriptions. -/
structure VkVertexInputBindingDescription where
  binding : Nat
  stride : Nat
  inputRate : Nat
deriving DecidableEq

/-- One element of pVertexAttributeDescriptions. -/
structure VkVertexInputAttributeDescription where
  location : Nat
  binding : Nat
  format : VkFormat
  offset : Nat
deriving DecidableEq

/-- One element of pStages of a graphics pipeline. -/
structure VkPipelineShaderStageCreateInfo where
  stage : Nat
  shaderModule : Nat
deriving DecidableEq

/-- The captured fields of VkGraphicsPipelineCreateInfo the layer reads
back: the stages, the vertex-input state and the input-assembly topology. -/
structure VkGraphicsPipelineCreateInfo where
  stages : List VkPipelineShaderStageCreateInfo
  vertexBindingDescriptions : List VkVertexInputBindingDescription
  vertexAttributeDescriptions : List VkVertexInputAttributeDescription
  inputAssemblyTopology : Nat
deriving DecidableEq

/-- One subpass of a render pass: only its color attachment count is read
back. -/
structure VkSubpassDescription where
  colorAttachmentCount : Nat
deriving DecidableEq

/-- The captured fields of VkRenderPassCreateInfo. -/
structure VkRenderPassCreateInfo where
  subpasses : List VkSubpassDescription
deriving DecidableEq

/-- The captured fields of VkFramebufferCreateInfo. -/
structure VkFramebufferCreateInfo where
  width : Nat
  height : Nat
deriving DecidableEq

/-- The captured fields of VkShaderModuleCreateInfo: the code size in
bytes and the code words. -/
structure VkShaderModuleCreateInfo where
  codeSize : Nat
  pCode : List Nat
deriving DecidableEq

/-- One descriptor-set layout binding: only its descriptor type is read
back. -/
structure VkDescriptorSetLayoutBinding where
  descriptorType : Nat
deriving DecidableEq

/-- The captured fields of VkDescriptorSetLayoutCreateInfo. -/
structure VkDescriptorSetLayoutCreateInfo where
  bindings : List VkDescriptorSetLayoutBinding
deriving DecidableEq

/-- A VkDescriptorBufferInfo written into a descriptor slot. -/
structure VkDescriptorBufferInfo where
  buffer : Nat
  offset : Nat
  range : Nat
deriving DecidableEq

/-- The process-wide registries and logs of layer_impl.cpp, gathered into
one record (the source keeps them as file-scope globals). -/
structure Globals where
  commandBuffers : List (Nat × List Cmd) := []
  mappedMemory : List (Nat × MemoryMapEntry) := []
  bufferToMemory : List (Nat × (Nat × Nat)) := []
  buffers : List (Nat × VkBufferCreateInfo) := []
  descriptorSets : List (Nat × Nat) := []
  descriptorSetLayouts : List (Nat × VkDescriptorSetLayoutCreateInfo) := []
  framebuffers : List (Nat × VkFramebufferCreateInfo) := []
  graphicsPipelines : List (Nat × VkGraphicsPipelineCreateInfo) := []
  pipelineLayouts : List (Nat × Nat) := []
  renderPasses : List (Nat × VkRenderPassCreateInfo) := []
  shaderModules : List (Nat × VkShaderModuleCreateInfo) := []
  descriptorSetToBindingBuffer :
    List (Nat × List (Nat × VkDescriptorBufferInfo)) := []
  bufferCopies : List BufferCopy := []
  hostMem : Nat → Nat := fun _ => 0

/-- AddCommand: append a command record to the log of a command buffer,
creating the log on first use. -/
def addCommand :
    List (Nat × List Cmd) → Nat → Cmd → List (Nat × List Cmd)
  | [], commandBuffer, c => [(commandBuffer, [c])]
  | (k, cmds) :: rest, commandBuffer, c =>
    if k = commandBuffer then (k, cmds ++ [c]) :: rest
    else (k, cmds) :: addCommand rest commandBuffer c

/-- vkCreateBuffer interception: forward (the result of the forwarded call
is the parameter), and on success record the deep-copied create info under
the new buffer handle. -/
def vkCreateBuffer (g : Globals) (result : Nat) (newBuffer : Nat)
    (createInfo : VkBufferCreateInfo) : Globals × Nat :=
  (if result = vkSuccess then
     { g with buffers := insertNoOverwrite g.buffers newBuffer createInfo }
   else g, result)

/-- vkBindBufferMemory interception: on success record the (memory,
memoryOffset) pair under the buffer handle. -/
def vkBindBufferMemory (g : Globals) (result : Nat) (buffer memory
    memoryOffset : Nat) : Globals × Nat :=
  (if result = vkSuccess then
     { g with bufferToMemory :=
         insertNoOverwrite g.bufferToMemory buffer (memory, memoryOffset) }
   else g, result)

/-- vkMapMemory interception: on success record the (offset, size, flags,
pointer) tuple under the memory handle; pData is the pointer produced by
the underlying call. -/
def vkMapMemory (g : Globals) (result : Nat) (memory offset size flags
    pData : Nat) : Globals × Nat :=
  (if result = vkSuccess then
     let entry : MemoryMapEntry := ⟨offset, size, flags, pData⟩
     { g with mappedMemory := insertNoOverwrite g.mappedMemory memory entry }
   else g, result)

/-- The single index-buffer binding of the tracker. -/
structure IndexBufferBinding where
  buffer : Nat := 0
  offset : Nat := 0
  indexType : Nat := 0
deriving DecidableEq

/-- DrawCallStateTracker: the per-command-buffer replay snapshot.  The
values of boundVertexBuffers are Option Nat: some b is a buffer handle
read in range, none records that the replay read past the end of the
deep-copied pBuffers_ array (undefined behaviour in the source). -/
structure DrawCallStateTracker where
  graphicsPipelineIsBound : Bool := false
  boundGraphicsPipeline : Nat := 0
  currentRenderPass : Option VkRenderPassBeginInfo := none
  currentSubpass : Nat := 0
  boundGraphicsDescriptorSets : List (Nat × Nat) := []
  boundVertexBuffers : List (Nat × Option Nat) := []
  boundIndexBuffer : IndexBufferBinding := {}
deriving DecidableEq

/-- The zero-initialized tracker, DrawCallStateTracker drawCallStateTracker
= {} in vkQueueSubmit. -/
def initialTracker : DrawCallStateTracker := {}

/-- The CmdBindDescriptorSets replay loop: for descriptorSetOffset in
[0, descriptorSetCount), insert (firstSet + descriptorSetOffset,
pDescriptorSets_[descriptorSetOffset]).  key plays firstSet +
descriptorSetOffset. -/
def bindDescriptorSetsLoop (m : List (Nat × Nat)) (key : Nat) :
    List Nat → List (Nat × Nat)
  | [] => m
  | v :: rest => bindDescriptorSetsLoop (insertNoOverwrite m key v) (key + 1) rest

/-- The CmdBindVertexBuffers replay loop: for bindingOffset in
[0, bindingCount), insert (bindingOffset + firstBinding,
pBuffers_[bindingOffset + firstBinding]).  The deep-copied pBuffers_ array
holds exactly bindingCount elements, so the read is out of bounds whenever
firstBinding > 0; an out-of-range read is modelled as none. -/
def bindVertexBuffersLoop (bufs : List Nat) (firstBinding : Nat) :
    Nat → Nat → List (Nat × Option Nat) → List (Nat × Option Nat)
  | _, 0, m => m
  | bindingOffset, count + 1, m =>
    bindVertexBuffersLoop bufs firstBinding (bindingOffset + 1) count
      (insertNoOverwrite m (bindingOffset + firstBinding)
        (bufs.get? (bindingOffset + firstBinding)))

/-- The per-record step of the replay loop in vkQueueSubmit, restricted to
the records that mutate the tracker (copy-buffer mutates the globals and
draws emit output; both leave the tracker unchanged). -/
def applyCmd (s : DrawCallStateTracker) : Cmd → DrawCallStateTracker
  | .beginRenderPass renderPassBegin _ =>
    { s with currentRenderPass := some renderPassBegin, currentSubpass := 0 }
  | .bindDescriptorSets pipelineBindPoint _ firstSet descriptorSets _ =>
    if pipelineBindPoint = vkPipelineBindPointGraphics then
      let m := bindDescriptorSetsLoop s.boundGraphicsDescriptorSets firstSet descriptorSets
      { s with boundGraphicsDescriptorSets := m }
    else s
  | .bindIndexBuffer buffer offset indexType =>
    { s with boundIndexBuffer := ⟨buffer, offset, indexType⟩ }
  | .bindPipeline pipelineBindPoint pipeline =>
    if pipelineBindPoint = vkPipelineBindPointGraphics then
      { s with graphicsPipelineIsBound := true,
               boundGraphicsPipeline := pipeline }
    else s
  | .bindVertexBuffers firstBinding bufs _ =>
    let m := bindVertexBuffersLoop bufs firstBinding 0 bufs.length s.boundVertexBuffers
    { s with boundVertexBuffers := m }
  | _ => s

/-- The copy-buffer arm of the replay loop: append a BufferCopy built from
the record to the global bufferCopies list; other records leave the
globals unchanged. -/
def recordCopy (g : Globals) : Cmd → Globals
  | .copyBuffer srcBuffer dstBuffer regions =>
    { g with bufferCopies := g.bufferCopies ++ [⟨srcBuffer, dstBuffer, regions⟩] }
  | _ => g

/-- The vertex staging-buffer scan of HandleDrawCall: walk bufferCopies in
order, and at the first entry whose destination is the bound buffer take
its source and break; 0 is the VkBuffer vertexBuffer = nullptr initial
value. -/
def resolveLoop : List BufferCopy → Nat → Nat
  | [], _ => 0
  | c :: rest, bound =>
    if c.dstBuffer = bound then c.srcBuffer else resolveLoop rest bound

/-- Staging-buffer aliasing resolution for a bound vertex buffer: the
source of the first recorded copy into the bound buffer, or the bound
buffer itself when the scan left vertexBuffer null. -/
def resolveVertexDataSource (copies : List BufferCopy) (bound : Nat) : Nat :=
  let vertexBuffer := resolveLoop copies bound
  if vertexBuffer = 0 then bound else vertexBuffer

/-- The index staging-buffer scan of HandleDrawCall: like the vertex scan
but it asserts a single copy region and also takes that region's
srcOffset.  The accumulator is the (indexBuffer = nullptr,
bufferCopyOffset = 0) initial state. -/
def findIndexStagingLoop : List BufferCopy → Nat → Nat × Nat →
    Except String (Nat × Nat)
  | [], _, acc => .ok acc
  | c :: rest, bound, acc =>
    if c.dstBuffer = bound then
      match c.regions with
      | [r] => .ok (c.srcBuffer, r.srcOffset)
      | _ => .error "Only one copy region supported."
    else findIndexStagingLoop rest bound acc

/-- The index-literal emission loops of HandleDrawCall: indexCount reads
of 16-bit or 32-bit unsigned integers starting at bufferPtr, appended one
by one to the output (the stream appends of the source); any other index
type is assert(false). -/
def indexLiterals (mem : Nat → Nat) (indexType : Nat) (bufferPtr : Nat)
    (indexCount : Nat) : Except String (List Nat) :=
  if indexType = vkIndexTypeUint16 then
    .ok ((List.range indexCount).foldl
      (fun acc indexIdx => acc ++ [readU16 mem (bufferPtr + 2 * indexIdx)]) [])
  else if indexType = vkIndexTypeUint32 then
    .ok ((List.range indexCount).foldl
      (fun acc indexIdx => acc ++ [readU32 mem (bufferPtr + 4 * indexIdx)]) [])
  else .error "Invalid indexType"

/-- The emitted index-buffer section: the declared data type string, the
literal values and whether the INDEX_DATA pipeline line was written. -/
structure IndexBlock where
  dataType : String
  literals : List Nat
  pipelineLine : Bool
deriving DecidableEq

/-- The tail of the index-buffer section of HandleDrawCall, after the
staging scan has resolved the data-holding buffer and the extra copy
offset: look up the buffer's device memory (bufferToMemory.at) and its
mapping (asserted present), then emit indexCount literals from the mapped
pointer plus the copy offset plus the binding offset, under a DATA_TYPE
uint32 declaration regardless of the source index width. -/
def emitIndexBufferDataTail (g : Globals) (s : DrawCallStateTracker)
    (indexCount : Nat) (indexBuffer bufferCopyOffset : Nat) :
    Except String IndexBlock :=
  match lookupA g.bufferToMemory indexBuffer with
  | none => .error "bufferToMemory.at"
  | some deviceMemoryPair =>
    match lookupA g.mappedMemory deviceMemoryPair.1 with
    | none => .error "Index buffer mapping not found"
    | some mm =>
      let bufferPtr := mm.ptr + bufferCopyOffset + s.boundIndexBuffer.offset
      match indexLiterals g.hostMem s.boundIndexBuffer.indexType
          bufferPtr indexCount with
      | .error m => .error m
      | .ok lits =>
        .ok ⟨"uint32", lits, true⟩

/-- The index-buffer part of HandleDrawCall (entered when indexCount > 0):
check the bound index buffer's create info and memory binding, run the
staging scan (falling back to the bound buffer when the scan left the
null sentinel), then emit the literals from the resolved buffer. -/
def emitIndexBufferData (g : Globals) (s : DrawCallStateTracker)
    (indexCount : Nat) : Except String IndexBlock :=
  match lookupA g.buffers s.boundIndexBuffer.buffer with
  | none => .error "buffers.at"
  | some bufferCI =>
    if Nat.land bufferCI.usage vkBufferUsageIndexBufferBit = 0 then
      .error "assert buffer.usage INDEX_BUFFER_BIT"
    else if (lookupA g.bufferToMemory s.boundIndexBuffer.buffer).isNone then
      .error "Index buffer memory not found"
    else
      match findIndexStagingLoop g.bufferCopies s.boundIndexBuffer.buffer (0, 0) with
      | .error m => .error m
      | .ok (scanned, bufferCopyOffset) =>
        let indexBuffer :=
          if scanned = 0 then s.boundIndexBuffer.buffer else scanned
        emitIndexBufferDataTail g s indexCount indexBuffer bufferCopyOffset

/-- One emitted BUFFER vert_<binding>_<location> declaration header. -/
structure VertexBlockDecl where
  name : String
  location : Nat
  dataType : String
deriving DecidableEq

/-- The per-location declaration loop of HandleDrawCall: location is the
loop counter, used both as the index into pVertexAttributeDescriptions and
as the LOCATION label of the emitted block; the type comes from
getBufferTypeName of the indexed description's format (assert(false) on an
unknown format). -/
def vertexBlockDeclsGo (bindingNumber : Nat) :
    Nat → List VkVertexInputAttributeDescription →
    Except String (List VertexBlockDecl)
  | _, [] => .ok []
  | location, description :: rest =>
    match getBufferTypeName description.format with
    | none => .error "Unknown format."
    | some ty =>
      match vertexBlockDeclsGo bindingNumber (location + 1) rest with
      | .error m => .error m
      | .ok tail =>
        .ok (⟨"vert_" ++ toString bindingNumber ++ "_" ++ toString location,
              location, ty⟩ :: tail)

/-- The emitted vertex-data block declarations for one vertex-buffer
binding, one per attribute-description index. -/
def vertexBlockDecls (bindingNumber : Nat)
    (attrs : List VkVertexInputAttributeDescription) :
    Except String (List VertexBlockDecl) :=
  vertexBlockDeclsGo bindingNumber 0 attrs

/-- Byte offsets of the elements walked by the data loop: bufferOffset = 0,
stride, 2*stride, ... while bufferOffset < size.  (A zero stride loops
forever in the source; here Nat division by zero makes the list empty.) -/
def strideOffsets (size stride : Nat) : List Nat :=
  (List.range ((size + stride - 1) / stride)).map (fun k => k * stride)

/-- One attribute's reads at one element: componentCount(format) raw
4-byte words starting at readPtr, advancing readPtr by
componentWidth(format) per component; the unknown-format switch arms are
assert(false). -/
def readAttrData (mem : Nat → Nat) (fmt : VkFormat) (readPtr : Nat) :
    Except String (List Nat × Nat) :=
  match getComponentCount fmt with
  | none => .error "Unknown format."
  | some components =>
    match getComponentWidth fmt with
    | none => .error "Unknown format."
    | some componentWidth =>
      match getFormatTypeCode fmt with
      | none => .error "Unimplemented format"
      | some _ =>
        .ok ((List.range components).map
              (fun c => readU32 mem (readPtr + c * componentWidth)),
             readPtr + components * componentWidth)

/-- The inner location loop of the data walk: thread readPtr through the
attribute descriptions in order, collecting each attribute's words for
this element. -/
def readElement (mem : Nat → Nat) :
    List VkVertexInputAttributeDescription → Nat →
    Except String (List (List Nat))
  | [], _ => .ok []
  | description :: rest, readPtr =>
    match readAttrData mem description.format readPtr with
    | .error m => .error m
    | .ok (ws, readPtr2) =>
      match readElement mem rest readPtr2 with
      | .error m => .error m
      | .ok tail => .ok (ws :: tail)

/-- The full data walk of HandleDrawCall: per element (stride steps through
the buffer size), per location, append that attribute's words to the
location's block; the result is the per-location literal lists. -/
def vertexDataLiterals (mem : Nat → Nat)
    (attrs : List VkVertexInputAttributeDescription)
    (basePtr size stride : Nat) : Except String (List (List Nat)) :=
  match (strideOffsets size stride).mapM
      (fun bufferOffset => readElement mem attrs (basePtr + bufferOffset)) with
  | .error m => .error m
  | .ok perElement =>
    .ok ((List.range attrs.length).map
      (fun location => (perElement.map (fun e => e.getD location [])).flatten))

/-- The serialized output for one bound vertex-buffer binding: either the
per-location declarations with their literal data, or the bare "..."
placeholder written when the bound buffer has no bufferToMemory entry. -/
inductive VertexBindingSection where
  | blocks (decls : List VertexBlockDecl) (literals : List (List Nat))
  | missingMemoryPlaceholder
deriving DecidableEq

/-- The per-vertex-buffer-binding part of HandleDrawCall.  boundBuffer is
the value stored by the replay; none (an out-of-bounds pBuffers_ read) has
no defined source behaviour and is surfaced as a failure here. -/
def emitVertexBinding (g : Globals) (pci : VkGraphicsPipelineCreateInfo)
    (bindingNumber : Nat) (boundBuffer : Option Nat) :
    Except String VertexBindingSection :=
  match boundBuffer with
  | none => .error "indeterminate vertex buffer handle"
  | some bound =>
    match lookupA g.buffers bound with
    | none => .error "buffers.at"
    | some bufferCI =>
      if Nat.land bufferCI.usage vkBufferUsageVertexBufferBit = 0 then
        .error "assert buffer.usage VERTEX_BUFFER_BIT"
      else
        match pci.vertexBindingDescriptions.get? bindingNumber with
        | none => .error "pVertexBindingDescriptions out of range"
        | some bindingDescription =>
          if bindingDescription.inputRate ≠ vkVertexInputRateVertex then
            .error "inputRate not implemented"
          else
            match lookupA g.bufferToMemory bound with
            | none => .ok .missingMemoryPlaceholder
            | some _ =>
              let vertexBuffer := resolveVertexDataSource g.bufferCopies bound
              match lookupA g.bufferToMemory vertexBuffer with
              | none => .error "bufferToMemory.at"
              | some deviceMemoryPair =>
                match lookupA g.mappedMemory deviceMemoryPair.1 with
                | none => .error "Vertex buffer mapping not found"
                | some mm =>
                  match vertexBlockDecls bindingNumber
                      pci.vertexAttributeDescriptions with
                  | .error m => .error m
                  | .ok decls =>
                    match vertexDataLiterals g.hostMem
                        pci.vertexAttributeDescriptions mm.ptr bufferCI.size
                        bindingDescription.stride with
                    | .error m => .error m
                    | .ok lits => .ok (.blocks decls lits)

/-- What lands between DATA and END of one descriptor buffer declaration:
the "..." placeholder (no bufferToMemory entry for the buffer), nothing at
all (a bufferToMemory entry whose memory has no mappedMemory entry), or
the literal 32-bit words of the buffer range. -/
inductive DescriptorContent where
  | placeholder
  | empty
  | floatValues (words : List Nat)
deriving DecidableEq

/-- The data part of one descriptor binding in HandleDrawCall: resolve the
buffer's memory and mapping; a missing memory binding yields the "..."
placeholder, a missing mapping yields an empty block, and a present
mapping (after the offset/size asserts) yields range/4 words read from the
mapped pointer. -/
def descriptorDataContent (g : Globals) (bufferInfo : VkDescriptorBufferInfo)
    (bufferCreateInfo : VkBufferCreateInfo) :
    Except String DescriptorContent :=
  match lookupA g.bufferToMemory bufferInfo.buffer with
  | none => .ok .placeholder
  | some deviceMemoryPair =>
    match lookupA g.mappedMemory deviceMemoryPair.1 with
    | none => .ok .empty
    | some mm =>
      let range :=
        if bufferInfo.range = vkWholeSize then bufferCreateInfo.size
        else bufferInfo.range
      if mm.offset ≠ 0 then .error "assert mapping offset is 0"
      else if mm.size < range then .error "assert mapping size covers range"
      else
        .ok (.floatValues ((List.range (range / 4)).map
          (fun bidx => readU32 g.hostMem (mm.ptr + 4 * bidx))))

/-- One emitted descriptor buffer declaration plus its BIND line. -/
structure DescriptorBlock where
  name : String
  dataType : String
  content : DescriptorContent
  role : String
  setNumber : Nat
  bindingNumber : Nat
deriving DecidableEq

/-- One binding slot of a bound descriptor set in HandleDrawCall: look up
the buffer's create info, assert a zero buffer offset, compute the data
content, and read the layout binding (indexed by the binding number) for
the BIND role. -/
def emitDescriptorBinding (g : Globals) (setNumber bindingNumber : Nat)
    (bufferInfo : VkDescriptorBufferInfo)
    (layout : VkDescriptorSetLayoutCreateInfo) :
    Except String DescriptorBlock :=
  match lookupA g.buffers bufferInfo.buffer with
  | none => .error "buffers.at"
  | some bufferCreateInfo =>
    if bufferInfo.offset ≠ 0 then .error "assert bufferInfo.offset is 0"
    else
      match descriptorDataContent g bufferInfo bufferCreateInfo with
      | .error m => .error m
      | .ok content =>
        match layout.bindings.get? bindingNumber with
        | none => .error "pBindings out of range"
        | some layoutBinding =>
          .ok ⟨"buf_" ++ toString setNumber ++ "_" ++ toString bindingNumber,
               "float", content,
               (if layoutBinding.descriptorType = vkDescriptorTypeUniformBuffer
                then "uniform" else "..."),
               setNumber, bindingNumber⟩

/-- One bound descriptor set in HandleDrawCall: resolve its layout via the
descriptorSets and descriptorSetLayouts registries and the recorded
binding-to-buffer table, then emit every recorded slot. -/
def emitDescriptorSet (g : Globals) (setNumber setHandle : Nat) :
    Except String (List DescriptorBlock) :=
  match lookupA g.descriptorSets setHandle with
  | none => .error "descriptorSets.at"
  | some layoutHandle =>
    match lookupA g.descriptorSetLayouts layoutHandle with
    | none => .error "descriptorSetLayouts.at"
    | some layout =>
      match lookupA g.descriptorSetToBindingBuffer setHandle with
      | none => .error "descriptorSetToBindingBuffer.at"
      | some bindingAndBuffers =>
        bindingAndBuffers.mapM
          (fun bb => emitDescriptorBinding g setNumber bb.1 bb.2 layout)

/-- GetDisassembly: read the shader module's create info and hand
codeSize/4 words to the external disassembler; the words themselves stand
for the disassembly here since the disassembler is outside this source. -/
def getDisassembly (g : Globals) (shaderModule : Nat) :
    Except String (List Nat) :=
  match lookupA g.shaderModules shaderModule with
  | none => .error "shaderModules.at"
  | some createInfo => .ok (createInfo.pCode.take (createInfo.codeSize / 4))

/-- The stage scan of HandleDrawCall: a vertex stage sets the vertex
module, a fragment stage the fragment module, anything else is
assert(false && "Not handled."). -/
def scanStages : List VkPipelineShaderStageCreateInfo →
    Option Nat × Option Nat → Except String (Option Nat × Option Nat)
  | [], acc => .ok acc
  | stageCI :: rest, (v, f) =>
    if stageCI.stage = vkShaderStageVertexBit then
      scanStages rest (some stageCI.shaderModule, f)
    else if stageCI.stage = vkShaderStageFragmentBit then
      scanStages rest (v, some stageCI.shaderModule)
    else .error "Not handled."

/-- The structured content of the Amber script emitted for one draw. -/
structure AmberScript where
  vertexShaderCode : List Nat
  fragmentShaderCode : List Nat
  vertexSections : List VertexBindingSection
  indexBlock : Option IndexBlock
  descriptorBlocks : List DescriptorBlock
  framebufferWidth : Nat
  framebufferHeight : Nat
  colorAttachmentCount : Nat
  topology : String
  indexed : Bool
deriving DecidableEq

/-- Outcome of HandleDrawCall for one draw: a silent skip (no pipeline
bound: no output and no error), the dedicated fatal assert on a null
current render pass, any other fatal assert or missing-key lookup, or an
emitted script. -/
inductive DrawResult where
  | skipped
  | fatalNullRenderPass
  | fatal (msg : String)
  | output (script : AmberScript)
deriving DecidableEq

/-- The body of HandleDrawCall after the pipeline and render-pass checks,
in source order: pipeline lookup, stage scan and required-stage asserts,
shader disassembly, vertex-buffer sections, index section (when
indexCount > 0), descriptor sections, render-pass subpass and framebuffer
lookups, topology lookup. -/
def handleDrawCallBody (g : Globals) (s : DrawCallStateTracker)
    (rp : VkRenderPassBeginInfo) (indexCount : Nat) :
    Except String AmberScript :=
  match lookupA g.graphicsPipelines s.boundGraphicsPipeline with
  | none => .error "graphicsPipelines.at"
  | some pci =>
    match scanStages pci.stages (none, none) with
    | .error m => .error m
    | .ok (vOpt, fOpt) =>
      match vOpt with
      | none => .error "Vertex shader required for graphics pipeline."
      | some vertexShader =>
        match fOpt with
        | none => .error "Fragment shader required for graphics pipeline."
        | some fragmentShader =>
          match getDisassembly g vertexShader with
          | .error m => .error m
          | .ok vcode =>
            match getDisassembly g fragmentShader with
            | .error m => .error m
            | .ok fcode =>
              match s.boundVertexBuffers.mapM
                  (fun bv => emitVertexBinding g pci bv.1 bv.2) with
              | .error m => .error m
              | .ok vertexSections =>
                match (if indexCount > 0 then
                        Except.map some (emitIndexBufferData g s indexCount)
                       else .ok none) with
                | .error m => .error m
                | .ok indexBlock =>
                  match s.boundGraphicsDescriptorSets.mapM
                      (fun ds => emitDescriptorSet g ds.1 ds.2) with
                  | .error m => .error m
                  | .ok descriptorBlockLists =>
                    match lookupA g.renderPasses rp.renderPass with
                    | none => .error "renderPasses.at"
                    | some rpci =>
                      match rpci.subpasses.get? s.currentSubpass with
                      | none => .error "pSubpasses out of range"
                      | some subpass =>
                        match lookupA g.framebuffers rp.framebuffer with
                        | none => .error "framebuffers.at"
                        | some fbci =>
                          match lookupA topologies pci.inputAssemblyTopology with
                          | none => .error "topologies.at"
                          | some topo =>
                            .ok ⟨vcode, fcode, vertexSections, indexBlock,
                                 descriptorBlockLists.flatten, fbci.width,
                                 fbci.height, subpass.colorAttachmentCount,
                                 topo, indexCount > 0⟩

/-- HandleDrawCall: return silently when no graphics pipeline is bound,
then assert the current render pass is non-null, then run the body. -/
def handleDrawCall (g : Globals) (s : DrawCallStateTracker)
    (indexCount : Nat) : DrawResult :=
  if s.graphicsPipelineIsBound = false then .skipped
  else
    match s.currentRenderPass with
    | none => .fatalNullRenderPass
    | some rp =>
      match handleDrawCallBody g s rp indexCount with
      | .error m => .fatal m
      | .ok script => .output script

/-- The replay loop of vkQueueSubmit over one command buffer's log: fold
each record into the tracker (and copy records into the globals), invoking
HandleDrawCall at each draw (index count 0) and draw-indexed (the record's
index count).  Returns the updated globals and the draw outcomes in
order. -/
def replayResults (g : Globals) (s : DrawCallStateTracker) :
    List Cmd → Globals × List DrawResult
  | [] => (g, [])
  | c :: rest =>
    let outs : List DrawResult :=
      match c with
      | .draw _ _ _ _ => [handleDrawCall g s 0]
      | .drawIndexed indexCount _ _ _ _ => [handleDrawCall g s indexCount]
      | _ => []
    let next := replayResults (recordCopy g c) (applyCmd s c) rest
    (next.1, outs ++ next.2)

/-- The command-buffer loop of one submit info: command buffers with no
captured log are silently skipped; each logged buffer is replayed against
a fresh zero-initialized tracker. -/
def submitCommandBuffers (g : Globals) :
    List Nat → Globals × List DrawResult
  | [] => (g, [])
  | cb :: rest =>
    match lookupA g.commandBuffers cb with
    | none => submitCommandBuffers g rest
    | some cmds =>
      let replayed := replayResults g initialTracker cmds
      let next := submitCommandBuffers replayed.1 rest
      (next.1, replayed.2 ++ next.2)

/-- vkQueueSubmit: replay every command buffer of every submit info in the
order provided, then return the forwarded call's result unchanged. -/
def vkQueueSubmit (g : Globals) (result : Nat) (submits : List (List Nat)) :
    Globals × List DrawResult × Nat :=
  go g submits result
where
  go (g : Globals) : List (List Nat) → Nat → Globals × List DrawResult × Nat
    | [], result => (g, [], result)
    | cbs :: rest, result =>
      let one := submitCommandBuffers g cbs
      let next := go one.1 rest result
      (next.1, one.2 ++ next.2.1, result)

/-- drawsPreceded seen cmds: every draw or draw-indexed record of cmds is
preceded (earlier in the list, or already before the list when seen is
true) by a begin-render-pass record. -/
def drawsPreceded : Bool → List Cmd → Bool
  | _, [] => true
  | _, .beginRenderPass _ _ :: rest => drawsPreceded true rest
  | seen, .draw _ _ _ _ :: rest => seen && drawsPreceded seen rest
  | seen, .drawIndexed _ _ _ _ _ :: rest => seen && drawsPreceded seen rest
  | seen, _ :: rest => drawsPreceded seen rest

/-- Concrete buffer-copy list: two copies into buffer 9, from 5 and 6. -/
def copiesC1 : List BufferCopy := [⟨5, 9, []⟩, ⟨6, 9, []⟩]

/-- Concrete host memory whose byte at address a is a mod 7. -/
def memC2 : Nat → Nat := fun a => a % 7

/-- Concrete registries with one index buffer (handle 1, usage
INDEX_BUFFER_BIT) bound to memory 2, mapped at pointer 100. -/
def gC2 : Globals :=
  { buffers := [(1, ⟨8, 64⟩)], bufferToMemory := [(1, (2, 0))],
    mappedMemory := [(2, ⟨0, 8, 0, 100⟩)], hostMem := memC2 }

/-- Concrete tracker with a bound 16-bit index buffer (handle 1). -/
def sC2 : DrawCallStateTracker := { boundIndexBuffer := ⟨1, 0, 0⟩ }

/-- The two 16-bit index literals read from memC2 at pointer 100. -/
def litsC2 : List Nat := [770, 1284]

/-- The index block emitted for gC2 and sC2 with indexCount 2. -/
def blkC2 : IndexBlock := ⟨"uint32", litsC2, true⟩

/-- Concrete attribute list with a single attribute declared for
location 1. -/
def attrsC4 : List VkVertexInputAttributeDescription :=
  [⟨1, 0, .r32Sfloat, 0⟩]

/-- Concrete attribute list whose i-th description is declared for
location i. -/
def attrsC4w : List VkVertexInputAttributeDescription :=
  [⟨0, 0, .r32g32Sfloat, 0⟩, ⟨1, 0, .r32Uint, 8⟩]

/-- The block declarations emitted for attrsC4w at binding 0. -/
def declsC4w : List VertexBlockDecl :=
  [⟨"vert_0_0", 0, "vec2<float>"⟩, ⟨"vert_0_1", 1, "uint32"⟩]

/-- Concrete registries where buffer 1 has a memory binding to memory 2
but memory 2 has no recorded mapping. -/
def gC9 : Globals :=
  { buffers := [(1, ⟨16, 0⟩)], bufferToMemory := [(1, (2, 0))] }

/-- Concrete descriptor buffer info referring to buffer 1. -/
def biC9 : VkDescriptorBufferInfo := ⟨1, 0, 16⟩

/-- Concrete tracker with a graphics pipeline bound but no render pass
begun. -/
def trackerC10 : DrawCallStateTracker := { graphicsPipelineIsBound := true }

/-- Concrete log where the draw is preceded by a begin-render-pass. -/
def cmdsC10 : List Cmd := [Cmd.beginRenderPass ⟨1, 1⟩ 0, Cmd.draw 3 1 0 0]

theorem lookupA_append_self {α : Type} (m : List (Nat × α)) (k : Nat) (v : α)
    (h : lookupA m k = none) : lookupA (m ++ [(k, v)]) k = some v := by
  induction m with
  | nil => simp [lookupA]
  | cons p rest ih =>
    rcases p with ⟨k2, v2⟩
    simp only [lookupA] at h
    simp only [List.cons_append, lookupA]
    by_cases hk : k2 = k
    · rw [if_pos hk] at h; cases h
    · rw [if_neg hk] at h
      rw [if_neg hk]
      exact ih h

theorem lookupA_append_other {α : Type} (m : List (Nat × α)) (k k2 : Nat)
    (v : α) (h : k2 ≠ k) : lookupA (m ++ [(k, v)]) k2 = lookupA m k2 := by
  induction m with
  | nil =>
    show lookupA [(k, v)] k2 = lookupA [] k2
    simp only [lookupA]
    rw [if_neg (fun hh => h hh.symm)]
  | cons p rest ih =>
    rcases p with ⟨k3, v3⟩
    simp only [List.cons_append, lookupA]
    split <;> simp_all

theorem lookupA_insert_self {α : Type} (m : List (Nat × α)) (k : Nat)
    (v : α) :
    lookupA (insertNoOverwrite m k v) k = some ((lookupA m k).getD v) := by
  unfold insertNoOverwrite
  cases h : lookupA m k with
  | none => simp [lookupA_append_self m k v h]
  | some o => simp [h]

theorem lookupA_insert_other {α : Type} (m : List (Nat × α)) (k k2 : Nat)
    (v : α) (h : k2 ≠ k) :
    lookupA (insertNoOverwrite m k v) k2 = lookupA m k2 := by
  unfold insertNoOverwrite
  cases hm : lookupA m k with
  | none => exact lookupA_append_other m k k2 v h
  | some o => rfl

theorem bindDescriptorSetsLoop_lookup_lt (vs : List Nat) :
    ∀ (m : List (Nat × Nat)) (key j : Nat), j < key →
      lookupA (bindDescriptorSetsLoop m key vs) j = lookupA m j := by
  induction vs with
  | nil => intro m key j _; rfl
  | cons v rest ih =>
    intro m key j hj
    unfold bindDescriptorSetsLoop
    rw [ih _ (key + 1) j (Nat.lt_succ_of_lt hj)]
    exact lookupA_insert_other m key j v (Nat.ne_of_lt hj)

theorem bindDescriptorSetsLoop_lookup (vs : List Nat) :
    ∀ (m : List (Nat × Nat)) (key i : Nat), i < vs.length →
      lookupA (bindDescriptorSetsLoop m key vs) (key + i) =
        some ((lookupA m (key + i)).getD (vs.getD i 0)) := by
  induction vs with
  | nil => intro m key i hi; simp at hi
  | cons v rest ih =>
    intro m key i hi
    cases i with
    | zero =>
      have h1 := bindDescriptorSetsLoop_lookup_lt rest
        (insertNoOverwrite m key v) (key + 1) key (Nat.lt_succ_self key)
      rw [lookupA_insert_self] at h1
      exact h1
    | succ j =>
      have hj : j < rest.length := Nat.lt_of_succ_lt_succ (by simpa using hi)
      have h2 := ih (insertNoOverwrite m key v) (key + 1) j hj
      rw [lookupA_insert_other m key (key + 1 + j) v (by omega)] at h2
      have harith : key + 1 + j = key + (j + 1) := by omega
      rw [harith] at h2
      exact h2

theorem foldl_append_eq_map (f : Nat → Nat) :
    ∀ (l : List Nat) (acc : List Nat),
      l.foldl (fun a i => a ++ [f i]) acc = acc ++ l.map f := by
  intro l
  induction l with
  | nil => intro acc; simp
  | cons x rest ih => intro acc; simp [ih]

theorem getD_map_range (f : Nat → Nat) (n i : Nat) (h : i < n) :
    ((List.range n).map f).getD i 0 = f i := by
  rw [List.getD_eq_getElem?_getD, List.getElem?_map, List.getElem?_range h]
  rfl

theorem indexLiterals_uint16_eq (mem : Nat → Nat) (bufferPtr indexCount : Nat) :
    indexLiterals mem vkIndexTypeUint16 bufferPtr indexCount =
      .ok ((List.range indexCount).map
            (fun i => readU16 mem (bufferPtr + 2 * i))) := by
  simp [indexLiterals, foldl_append_eq_map]

theorem readU16_lt (mem : Nat → Nat) (a : Nat) : readU16 mem a < 65536 := by
  have h1 : byteAt mem a < 256 := Nat.mod_lt _ (by decide)
  have h2 : byteAt mem (a + 1) < 256 := Nat.mod_lt _ (by decide)
  unfold readU16
  omega

/-- Claim C3 (code bug): evaluating the replay of CmdBindVertexBuffers.
First conjunct: replaying bindVertexBuffers(firstBinding = 1,
bindingCount = 1, pBuffers = [42]) stores, under binding number 1, the
value read at index 1 of the one-element deep-copied array — an
out-of-bounds read (modelled none), not the claimed pBuffers[0] = 42.
Second conjunct: rebinding binding number 0 keeps the first buffer (7):
std::unordered_map::insert does not overwrite, contradicting the claimed
overwrite. -/
theorem c3_bindVertexBuffers_replay_bug :
    (applyCmd initialTracker
        (Cmd.bindVertexBuffers 1 [42] [0])).boundVertexBuffers = [(1, none)] ∧
    (applyCmd (applyCmd initialTracker (Cmd.bindVertexBuffers 0 [7] [0]))
        (Cmd.bindVertexBuffers 0 [8] [0])).boundVertexBuffers = [(0, some 7)] := by
  constructor
  · rfl
  · rfl

/-- Claim C5 counterexample: two successful vkMapMemory calls on memory
handle 7; the registry keeps the first call's (0, 16, 0, 100), not the
later call's (8, 32, 0, 200), refuting overwrite-with-latest. -/
theorem c5_counterexample :
    lookupA (vkMapMemory (vkMapMemory ({} : Globals) 0 7 0 16 0 100).1
        0 7 8 32 0 200).1.mappedMemory 7 = some ⟨0, 16, 0, 100⟩ ∧
    ¬ lookupA (vkMapMemory (vkMapMemory ({} : Globals) 0 7 0 16 0 100).1
        0 7 8 32 0 200).1.mappedMemory 7 = some ⟨8, 32, 0, 200⟩ := by
  constructor
  · rfl
  · decide

/-- Claim C5 as amended: after a successful vkMapMemory call, the
registry's entry for the handle is the tuple of the FIRST successful
mapping call: a fresh handle receives this call's (offset, size, flags,
pointer), an already-recorded handle leaves the whole registry unchanged
(std::unordered_map::insert does not overwrite), and other handles are
untouched. -/
theorem c5_first_mapping_wins :
    ∀ (g : Globals) (memory offset size flags pData : Nat),
      (lookupA g.mappedMemory memory = none →
        lookupA (vkMapMemory g vkSuccess memory offset size flags
          pData).1.mappedMemory memory = some ⟨offset, size, flags, pData⟩) ∧
      (∀ e, lookupA g.mappedMemory memory = some e →
        (vkMapMemory g vkSuccess memory offset size flags pData).1 = g) ∧
      (∀ k, k ≠ memory →
        lookupA (vkMapMemory g vkSuccess memory offset size flags
          pData).1.mappedMemory k = lookupA g.mappedMemory k) := by
  intro g memory offset size flags pData
  refine ⟨?_, ?_, ?_⟩
  · intro h
    show lookupA (insertNoOverwrite g.mappedMemory memory
      ⟨offset, size, flags, pData⟩) memory = some ⟨offset, size, flags, pData⟩
    rw [lookupA_insert_self, h]
    rfl
  · intro e h
    simp [vkMapMemory, insertNoOverwrite, h]
  · intro k hk
    show lookupA (insertNoOverwrite g.mappedMemory memory
      ⟨offset, size, flags, pData⟩) k = lookupA g.mappedMemory k
    exact lookupA_insert_other _ _ _ _ hk

/-- Claim C5 witness: mapping a fresh handle records that call's tuple. -/
theorem c5_first_mapping_wins_witness :
    lookupA (vkMapMemory ({} : Globals) vkSuccess 7 1 2 3
      4).1.mappedMemory 7 = some ⟨1, 2, 3, 4⟩ :=
  (c5_first_mapping_wins {} 7 1 2 3 4).1 rfl

/-- Claim C6 counterexample: binding descriptor set 5 to set number 0 and
then set 9 to set number 0 (both graphics) leaves set 5 recorded: the
replay's insert does not overwrite, refuting the claimed overwrite. -/
theorem c6_counterexample :
    lookupA (applyCmd (applyCmd initialTracker
        (Cmd.bindDescriptorSets vkPipelineBindPointGraphics 0 0 [5] []))
        (Cmd.bindDescriptorSets vkPipelineBindPointGraphics 0 0 [9]
          [])).boundGraphicsDescriptorSets 0 = some 5 ∧
    ¬ lookupA (applyCmd (applyCmd initialTracker
        (Cmd.bindDescriptorSets vkPipelineBindPointGraphics 0 0 [5] []))
        (Cmd.bindDescriptorSets vkPipelineBindPointGraphics 0 0 [9]
          [])).boundGraphicsDescriptorSets 0 = some 9 := by
  constructor
  · rfl
  · decide

/-- Claim C6 as amended: replaying a graphics bind-descriptor-sets record
sets the snapshot entry for set number firstSet + i to the i-th recorded
handle only when that set number had no prior entry; a prior entry is
kept (std::unordered_map::insert does not overwrite).  Records with any
other bind point leave the snapshot unchanged. -/
theorem c6_bindDescriptorSets_insert :
    (∀ (s : DrawCallStateTracker) (layout firstSet : Nat)
       (sets dyn : List Nat) (i : Nat), i < sets.length →
       lookupA (applyCmd s (Cmd.bindDescriptorSets
           vkPipelineBindPointGraphics layout firstSet sets
           dyn)).boundGraphicsDescriptorSets (firstSet + i) =
         some ((lookupA s.boundGraphicsDescriptorSets
           (firstSet + i)).getD (sets.getD i 0))) ∧
    (∀ (s : DrawCallStateTracker) (bp layout firstSet : Nat)
       (sets dyn : List Nat), bp ≠ vkPipelineBindPointGraphics →
       applyCmd s (Cmd.bindDescriptorSets bp layout firstSet sets dyn) = s) := by
  constructor
  · intro s layout firstSet sets dyn i hi
    show lookupA (bindDescriptorSetsLoop s.boundGraphicsDescriptorSets
      firstSet sets) (firstSet + i) = _
    exact bindDescriptorSetsLoop_lookup sets s.boundGraphicsDescriptorSets
      firstSet i hi
  · intro s bp layout firstSet sets dyn h
    simp [applyCmd, h]

/-- Claim C6 witness: a fresh set number receives the recorded handle, a
non-graphics bind point leaves the snapshot unchanged. -/
theorem c6_bindDescriptorSets_insert_witness :
    lookupA (applyCmd initialTracker (Cmd.bindDescriptorSets
        vkPipelineBindPointGraphics 0 2 [5] [])).boundGraphicsDescriptorSets
      2 = some 5 ∧
    applyCmd initialTracker (Cmd.bindDescriptorSets 1 0 2 [5] []) =
      initialTracker := by
  constructor
  · have h := c6_bindDescriptorSets_insert.1 initialTracker 0 2 [5] [] 0
      (by decide)
    simpa using h
  · exact c6_bindDescriptorSets_insert.2 initialTracker 1 0 2 [5] []
      (by decide)

/-- Claim C8: whenever the forwarded underlying call fails (any
non-success result), vkCreateBuffer, vkBindBufferMemory and vkMapMemory
leave every registry unchanged and return exactly that result, so the
interception never changes the observable outcome of the passthrough
call. -/
theorem c8_passthrough_failure :
    ∀ (g : Globals) (r : Nat), r ≠ vkSuccess →
      (∀ b ci, (vkCreateBuffer g r b ci).1 = g ∧
        (vkCreateBuffer g r b ci).2 = r) ∧
      (∀ buffer memory memoryOffset,
        (vkBindBufferMemory g r buffer memory memoryOffset).1 = g ∧
        (vkBindBufferMemory g r buffer memory memoryOffset).2 = r) ∧
      (∀ memory offset size flags pData,
        (vkMapMemory g r memory offset size flags pData).1 = g ∧
        (vkMapMemory g r memory offset size flags pData).2 = r) := by
  intro g r hr
  refine ⟨fun b ci => ⟨?_, rfl⟩, fun b m mo => ⟨?_, rfl⟩,
    fun m o sz fl p => ⟨?_, rfl⟩⟩
  · simp [vkCreateBuffer, hr]
  · simp [vkBindBufferMemory, hr]
  · simp [vkMapMemory, hr]

/-- Claim C8 witness: a failing result (1 = VK_ERROR_OUT_OF_HOST_MEMORY
region) leaves the empty registries unchanged and is returned as-is. -/
theorem c8_passthrough_failure_witness :
    (vkCreateBuffer ({} : Globals) 1 5 ⟨16, 128⟩).1 = {} ∧
    (vkMapMemory ({} : Globals) 1 7 0 16 0 100).2 = 1 :=
  ⟨((c8_passthrough_failure {} 1 (by decide)).1 5 ⟨16, 128⟩).1,
   ((c8_passthrough_failure {} 1 (by decide)).2.2 7 0 16 0 100).2⟩

theorem resolveLoop_first (bound : Nat) :
    ∀ (pre : List BufferCopy) (c : BufferCopy) (post : List BufferCopy),
      (∀ c2 ∈ pre, c2.dstBuffer ≠ bound) → c.dstBuffer = bound →
      resolveLoop (pre ++ c :: post) bound = c.srcBuffer := by
  intro pre
  induction pre with
  | nil => intro c post _ hc; simp [resolveLoop, hc]
  | cons p rest ih =>
    intro c post hpre hc
    have hp : p.dstBuffer ≠ bound := hpre p (List.mem_cons_self p rest)
    simp only [List.cons_append, resolveLoop]
    rw [if_neg hp]
    exact ih c post (fun c2 hm => hpre c2 (List.mem_cons_of_mem p hm)) hc

theorem resolveLoop_none (bound : Nat) :
    ∀ (copies : List BufferCopy), (∀ c ∈ copies, c.dstBuffer ≠ bound) →
      resolveLoop copies bound = 0 := by
  intro copies
  induction copies with
  | nil => intro _; rfl
  | cons c rest ih =>
    intro h
    simp only [resolveLoop]
    rw [if_neg (h c (List.mem_cons_self c rest))]
    exact ih (fun c2 hm => h c2 (List.mem_cons_of_mem c hm))

/-- Claim C1: the vertex staging-buffer aliasing resolution.  When the
recorded buffer-copies contain an entry whose destination is the bound
buffer, the data source is the source buffer of the FIRST such entry (the
copy list split as pre ++ c :: post with no match in pre); otherwise the
data source is the bound buffer itself.  The non-null hypothesis on the
matching copy's source reflects that 0 models VK_NULL_HANDLE, which the
scan uses as its not-found sentinel and which is never a valid recorded
buffer handle. -/
theorem c1_staging_alias_resolution (copies : List BufferCopy) (bound : Nat) :
    (∀ (pre post : List BufferCopy) (c : BufferCopy),
       copies = pre ++ c :: post →
       (∀ c2 ∈ pre, c2.dstBuffer ≠ bound) →
       c.dstBuffer = bound → c.srcBuffer ≠ 0 →
       resolveVertexDataSource copies bound = c.srcBuffer) ∧
    ((∀ c ∈ copies, c.dstBuffer ≠ bound) →
       resolveVertexDataSource copies bound = bound) := by
  constructor
  · intro pre post c hsplit hpre hc hsrc
    subst hsplit
    unfold resolveVertexDataSource
    rw [resolveLoop_first bound pre c post hpre hc]
    rw [if_neg hsrc]
  · intro hnone
    unfold resolveVertexDataSource
    rw [resolveLoop_none bound copies hnone]
    rfl

/-- Claim C1 witness: with two recorded copies into buffer 9 (sources 5
then 6), binding buffer 9 resolves to the first source 5; binding buffer
4, which no copy targets, resolves to itself. -/
theorem c1_staging_alias_resolution_witness :
    resolveVertexDataSource copiesC1 9 = 5 ∧
    resolveVertexDataSource copiesC1 4 = 4 :=
  ⟨(c1_staging_alias_resolution copiesC1 9).1 [] [⟨6, 9, []⟩] ⟨5, 9, []⟩
     rfl (by simp) rfl (by decide),
   (c1_staging_alias_resolution copiesC1 4).2 (by decide)⟩

theorem indexLiterals_uint16_length (mem : Nat → Nat) (p n : Nat)
    (lits : List Nat)
    (h : indexLiterals mem vkIndexTypeUint16 p n = .ok lits) :
    lits.length = n := by
  rw [indexLiterals_uint16_eq] at h
  injection h with h2
  rw [← h2]
  simp

theorem emitIndexBufferDataTail_ok (g : Globals) (s : DrawCallStateTracker)
    (n indexBuffer off : Nat) (blk : IndexBlock)
    (h : emitIndexBufferDataTail g s n indexBuffer off = .ok blk) :
    blk.dataType = "uint32" ∧ blk.pipelineLine = true ∧
    ∃ p, indexLiterals g.hostMem s.boundIndexBuffer.indexType p n =
      .ok blk.literals := by
  unfold emitIndexBufferDataTail at h
  cases h1 : lookupA g.bufferToMemory indexBuffer with
  | none =>
    simp only [h1] at h
    exact Except.noConfusion h
  | some dm =>
    simp only [h1] at h
    cases h2 : lookupA g.mappedMemory dm.1 with
    | none =>
      simp only [h2] at h
      exact Except.noConfusion h
    | some mm =>
      simp only [h2] at h
      cases h3 : indexLiterals g.hostMem s.boundIndexBuffer.indexType
          (mm.ptr + off + s.boundIndexBuffer.offset) n with
      | error m =>
        simp only [h3] at h
        exact Except.noConfusion h
      | ok lits =>
        simp only [h3] at h
        injection h with h4
        subst h4
        exact ⟨rfl, rfl, mm.ptr + off + s.boundIndexBuffer.offset, h3⟩

theorem emitIndexBufferData_ok (g : Globals) (s : DrawCallStateTracker)
    (n : Nat) (blk : IndexBlock)
    (h : emitIndexBufferData g s n = .ok blk) :
    blk.dataType = "uint32" ∧ blk.pipelineLine = true ∧
    ∃ p, indexLiterals g.hostMem s.boundIndexBuffer.indexType p n =
      .ok blk.literals := by
  unfold emitIndexBufferData at h
  cases h1 : lookupA g.buffers s.boundIndexBuffer.buffer with
  | none =>
    simp only [h1] at h
    exact Except.noConfusion h
  | some ci =>
    simp only [h1] at h
    by_cases h2 : Nat.land ci.usage vkBufferUsageIndexBufferBit = 0
    · rw [if_pos h2] at h
      exact Except.noConfusion h
    · rw [if_neg h2] at h
      by_cases h3 : (lookupA g.bufferToMemory s.boundIndexBuffer.buffer).isNone = true
      · rw [if_pos h3] at h
        exact Except.noConfusion h
      · rw [if_neg h3] at h
        cases h4 : findIndexStagingLoop g.bufferCopies
            s.boundIndexBuffer.buffer (0, 0) with
        | error m =>
          simp only [h4] at h
          exact Except.noConfusion h
        | ok pr =>
          obtain ⟨scanned, off⟩ := pr
          simp only [h4] at h
          exact emitIndexBufferDataTail_ok g s n _ off blk h

/-- Claim C2: with a 16-bit bound index type, the emitted index literals
are exactly indexCount values, the i-th being the i-th 16-bit unsigned
integer of the source data (each below 2^16, so emitting it as a 32-bit
literal preserves its value), and any successfully emitted index block is
declared DATA_TYPE uint32 regardless of the source width. -/
theorem c2_index16_widened :
    (∀ (mem : Nat → Nat) (bufferPtr indexCount : Nat) (lits : List Nat),
       indexLiterals mem vkIndexTypeUint16 bufferPtr indexCount = .ok lits →
         lits.length = indexCount ∧
         ∀ i, i < indexCount →
           lits.getD i 0 = readU16 mem (bufferPtr + 2 * i) ∧
           lits.getD i 0 < 65536) ∧
    (∀ (g : Globals) (s : DrawCallStateTracker) (n : Nat) (blk : IndexBlock),
       emitIndexBufferData g s n = .ok blk → blk.dataType = "uint32") ∧
    (∀ (g : Globals) (s : DrawCallStateTracker) (n : Nat) (blk : IndexBlock),
       s.boundIndexBuffer.indexType = vkIndexTypeUint16 →
       emitIndexBufferData g s n = .ok blk → blk.literals.length = n) := by
  refine ⟨?_, ?_, ?_⟩
  · intro mem bufferPtr indexCount lits h
    rw [indexLiterals_uint16_eq] at h
    injection h with h2
    subst h2
    constructor
    · simp
    · intro i hi
      constructor
      · exact getD_map_range _ indexCount i hi
      · rw [getD_map_range _ indexCount i hi]
        exact readU16_lt mem _
  · intro g s n blk h
    exact (emitIndexBufferData_ok g s n blk h).1
  · intro g s n blk hty h
    obtain ⟨-, -, p, hp⟩ := emitIndexBufferData_ok g s n blk h
    rw [hty] at hp
    exact indexLiterals_uint16_length g.hostMem p n blk.literals hp

/-- Claim C2 witness: two 16-bit indices read from memC2 at pointer 100
are emitted as the widened literals 770 and 1284 under DATA_TYPE
uint32. -/
theorem c2_index16_widened_witness :
    blkC2.dataType = "uint32" ∧ blkC2.literals.length = 2 ∧
    litsC2.getD 0 0 = readU16 memC2 100 ∧ litsC2.getD 0 0 < 65536 :=
  ⟨c2_index16_widened.2.1 gC2 sC2 2 blkC2 (by decide),
   c2_index16_widened.2.2 gC2 sC2 2 blkC2 rfl (by decide),
   ((c2_index16_widened.1 memC2 100 2 litsC2 (by decide)).2 0 (by decide)).1,
   ((c2_index16_widened.1 memC2 100 2 litsC2 (by decide)).2 0 (by decide)).2⟩

theorem vertexBlockDeclsGo_spec (b : Nat) :
    ∀ (attrs : List VkVertexInputAttributeDescription) (location : Nat)
      (decls : List VertexBlockDecl),
      vertexBlockDeclsGo b location attrs = .ok decls →
      decls.length = attrs.length ∧
      ∀ i d blk, attrs.get? i = some d → decls.get? i = some blk →
        blk.location = location + i ∧
        getBufferTypeName d.format = some blk.dataType := by
  intro attrs
  induction attrs with
  | nil =>
    intro location decls h
    unfold vertexBlockDeclsGo at h
    injection h with h2
    subst h2
    refine ⟨rfl, ?_⟩
    intro i d blk hd _
    simp at hd
  | cons a rest ih =>
    intro location decls h
    cases hty : getBufferTypeName a.format with
    | none =>
      unfold vertexBlockDeclsGo at h
      rw [hty] at h
      simp at h
    | some ty =>
      cases htail : vertexBlockDeclsGo b (location + 1) rest with
      | error m =>
        unfold vertexBlockDeclsGo at h
        rw [hty, htail] at h
        simp at h
      | ok tail =>
        unfold vertexBlockDeclsGo at h
        rw [hty, htail] at h
        injection h with h2
        subst h2
        have ihspec := ih (location + 1) tail htail
        constructor
        · simpa using ihspec.1
        · intro i d blk hd hblk
          cases i with
          | zero =>
            simp only [List.get?_cons_zero, Option.some.injEq] at hd hblk
            subst hd
            subst hblk
            exact ⟨rfl, hty⟩
          | succ j =>
            simp only [List.get?_cons_succ] at hd hblk
            have hj := ihspec.2 j d blk hd hblk
            refine ⟨?_, hj.2⟩
            rw [hj.1]
            omega

/-- Claim C4 as amended: the emitted vertex-data declarations for one
binding are one per attribute-description array index, in index order: the
i-th block is labelled LOCATION i and carries the data type of the i-th
description's format (the description's own location field is ignored).
Whenever every description's declared location equals its array index —
the only well-formed case for this code — this coincides with the
claimed round trip: each emitted block's location and type match a
declared attribute description for that location. -/
theorem c4_location_type_assignment :
    ∀ (b : Nat) (attrs : List VkVertexInputAttributeDescription)
      (decls : List VertexBlockDecl),
      vertexBlockDecls b attrs = .ok decls →
      decls.length = attrs.length ∧
      (∀ i d blk, attrs.get? i = some d → decls.get? i = some blk →
        blk.location = i ∧ getBufferTypeName d.format = some blk.dataType) ∧
      ((∀ i d, attrs.get? i = some d → d.location = i) →
        ∀ blk ∈ decls, ∃ d ∈ attrs, d.location = blk.location ∧
          getBufferTypeName d.format = some blk.dataType) := by
  intro b attrs decls h
  have hs := vertexBlockDeclsGo_spec b attrs 0 decls h
  refine ⟨hs.1, ?_, ?_⟩
  · intro i d blk hd hblk
    have h2 := hs.2 i d blk hd hblk
    refine ⟨?_, h2.2⟩
    rw [h2.1]
    omega
  · intro hloc blk hmem
    obtain ⟨i, hblk⟩ := List.get?_of_mem hmem
    have hilt : i < decls.length := by
      by_contra hge
      rw [List.get?_eq_none.mpr (Nat.le_of_not_lt hge)] at hblk
      cases hblk
    have hia : i < attrs.length := hs.1 ▸ hilt
    have hd : attrs.get? i = some (attrs.get ⟨i, hia⟩) := List.get?_eq_get hia
    have h2 := hs.2 i (attrs.get ⟨i, hia⟩) blk hd hblk
    refine ⟨attrs.get ⟨i, hia⟩, List.get_mem attrs i hia, ?_, h2.2⟩
    rw [hloc i (attrs.get ⟨i, hia⟩) hd, h2.1]
    omega

/-- Claim C4 counterexample: a pipeline whose only attribute description
is declared for location 1 still gets its single block emitted as
LOCATION 0 (the loop counter), so no declared description exists for the
emitted location: the claimed round trip fails. -/
theorem c4_counterexample :
    vertexBlockDecls 0 attrsC4 = .ok [⟨"vert_0_0", 0, "float"⟩] ∧
    ¬ (∃ d ∈ attrsC4, d.location = 0) := by
  constructor
  · rfl
  · decide

/-- Claim C4 witness: with descriptions declared for locations 0 and 1 in
index order, the emitted blocks are labelled 0 and 1 with the matching
types. -/
theorem c4_location_type_assignment_witness :
    declsC4w.length = attrsC4w.length ∧
    (VertexBlockDecl.mk "vert_0_1" 1 "uint32").location = 1 ∧
    getBufferTypeName (VkVertexInputAttributeDescription.mk 1 0
      .r32Uint 8).format = some (VertexBlockDecl.mk "vert_0_1" 1
      "uint32").dataType :=
  ⟨(c4_location_type_assignment 0 attrsC4w declsC4w (by decide)).1,
   (c4_location_type_assignment 0 attrsC4w declsC4w (by decide)).2.1 1
     ⟨1, 0, .r32Uint, 8⟩ ⟨"vert_0_1", 1, "uint32"⟩ (by decide) (by decide)⟩

/-- Claim C7: a draw reached while the snapshot has no bound graphics
pipeline produces the silent-skip outcome: HandleDrawCall returns without
emitting anything and without signalling an error, both when called
directly and when reached through the replay loop for a draw or a
draw-indexed record. -/
theorem c7_no_pipeline_silent_skip :
    ∀ (g : Globals) (s : DrawCallStateTracker),
      s.graphicsPipelineIsBound = false →
      (∀ n, handleDrawCall g s n = DrawResult.skipped) ∧
      (∀ vc ic fv fi rest,
        (replayResults g s (Cmd.draw vc ic fv fi :: rest)).2 =
          DrawResult.skipped :: (replayResults g s rest).2) ∧
      (∀ ic2 inst fi vo fin rest,
        (replayResults g s (Cmd.drawIndexed ic2 inst fi vo fin :: rest)).2 =
          DrawResult.skipped :: (replayResults g s rest).2) := by
  intro g s h
  have hskip : ∀ n, handleDrawCall g s n = DrawResult.skipped := by
    intro n
    unfold handleDrawCall
    rw [if_pos h]
  refine ⟨hskip, ?_, ?_⟩
  · intro vc ic fv fi rest
    show ([handleDrawCall g s 0] ++
      (replayResults (recordCopy g (Cmd.draw vc ic fv fi))
        (applyCmd s (Cmd.draw vc ic fv fi)) rest).2) = _
    rw [hskip 0]
    rfl
  · intro ic2 inst fi vo fin rest
    show ([handleDrawCall g s ic2] ++
      (replayResults (recordCopy g (Cmd.drawIndexed ic2 inst fi vo fin))
        (applyCmd s (Cmd.drawIndexed ic2 inst fi vo fin)) rest).2) = _
    rw [hskip ic2]
    rfl

/-- Claim C7 witness: the empty snapshot has no bound pipeline and the
draw is skipped. -/
theorem c7_no_pipeline_silent_skip_witness :
    handleDrawCall ({} : Globals) initialTracker 0 = DrawResult.skipped :=
  (c7_no_pipeline_silent_skip {} initialTracker rfl).1 0

/-- Claim C9 counterexample: buffer 1 has a recorded memory binding to
memory 2, but memory 2 has no recorded mapping; the descriptor data block
comes out empty — processing continues but NO placeholder marker is
emitted, contrary to the claim that an absent backing memory mapping
always yields the placeholder. -/
theorem c9_counterexample :
    lookupA gC9.mappedMemory 2 = none ∧
    descriptorDataContent gC9 biC9 ⟨16, 0⟩ =
      Except.ok DescriptorContent.empty ∧
    ¬ descriptorDataContent gC9 biC9 ⟨16, 0⟩ =
      Except.ok DescriptorContent.placeholder := by
  refine ⟨rfl, rfl, ?_⟩
  decide

/-- Claim C9 as amended: for a descriptor-bound buffer the serializer
never fails hard on missing memory information, but the tolerated gap has
two distinct shapes: a buffer with no recorded memory binding gets the
"..." placeholder in its data block, while a buffer whose bound memory has
no recorded mapping gets an empty data block (no placeholder); in both
cases serialization continues (an ok result, unlike the hard failures for
vertex and index data). -/
theorem c9_missing_mapping_tolerated :
    ∀ (g : Globals) (bufferInfo : VkDescriptorBufferInfo)
      (ci : VkBufferCreateInfo),
      (lookupA g.bufferToMemory bufferInfo.buffer = none →
        descriptorDataContent g bufferInfo ci =
          Except.ok DescriptorContent.placeholder) ∧
      (∀ deviceMemory memoryOffset,
        lookupA g.bufferToMemory bufferInfo.buffer =
          some (deviceMemory, memoryOffset) →
        lookupA g.mappedMemory deviceMemory = none →
        descriptorDataContent g bufferInfo ci =
          Except.ok DescriptorContent.empty) := by
  intro g bufferInfo ci
  constructor
  · intro h
    unfold descriptorDataContent
    rw [h]
  · intro deviceMemory memoryOffset h1 h2
    unfold descriptorDataContent
    simp only [h1, h2]

/-- Claim C9 witness: buffer 3 has no memory binding in gC9 and gets the
placeholder; buffer 1 is bound to unmapped memory 2 and gets the empty
block. -/
theorem c9_missing_mapping_tolerated_witness :
    descriptorDataContent gC9 ⟨3, 0, 16⟩ ⟨16, 0⟩ =
      Except.ok DescriptorContent.placeholder ∧
    descriptorDataContent gC9 biC9 ⟨16, 0⟩ =
      Except.ok DescriptorContent.empty :=
  ⟨(c9_missing_mapping_tolerated gC9 ⟨3, 0, 16⟩ ⟨16, 0⟩).1 rfl,
   (c9_missing_mapping_tolerated gC9 biC9 ⟨16, 0⟩).2 2 0 rfl rfl⟩

theorem handleDrawCall_some_ne_nullrp (g : Globals)
    (s : DrawCallStateTracker) (n : Nat)
    (h : s.currentRenderPass ≠ none) :
    handleDrawCall g s n ≠ DrawResult.fatalNullRenderPass := by
  unfold handleDrawCall
  by_cases hb : s.graphicsPipelineIsBound = false
  · rw [if_pos hb]
    intro hc
    cases hc
  · rw [if_neg hb]
    cases hrp : s.currentRenderPass with
    | none => exact absurd hrp h
    | some rp =>
      cases hbody : handleDrawCallBody g s rp n with
      | error m =>
        simp only [hbody]
        intro hc
        cases hc
      | ok script =>
        simp only [hbody]
        intro hc
        cases hc

theorem applyCmd_preserves_renderPass (s : DrawCallStateTracker) (c : Cmd)
    (h : ∀ info contents, c ≠ Cmd.beginRenderPass info contents) :
    (applyCmd s c).currentRenderPass = s.currentRenderPass := by
  cases c with
  | beginRenderPass info contents => exact absurd rfl (h info contents)
  | bindDescriptorSets bp l fs sets dyn =>
    simp only [applyCmd]
    split
    · rfl
    · rfl
  | bindIndexBuffer b o t => rfl
  | bindPipeline bp p =>
    simp only [applyCmd]
    split
    · rfl
    · rfl
  | bindVertexBuffers fb bufs offs => rfl
  | copyBuffer a b r => rfl
  | draw a b c2 d => rfl
  | drawIndexed a b c2 d e => rfl

theorem replayResults_no_nullrp :
    ∀ (cmds : List Cmd) (seen : Bool) (g : Globals)
      (s : DrawCallStateTracker),
      drawsPreceded seen cmds = true →
      (seen = true → s.currentRenderPass ≠ none) →
      ∀ r ∈ (replayResults g s cmds).2,
        r ≠ DrawResult.fatalNullRenderPass := by
  intro cmds
  induction cmds with
  | nil =>
    intro seen g s _ _ r hr
    simp [replayResults] at hr
  | cons c rest ih =>
    intro seen g s hpre hinv r hr
    cases c with
    | beginRenderPass info contents =>
      have hr2 : r ∈ (replayResults (recordCopy g
          (Cmd.beginRenderPass info contents)) (applyCmd s
          (Cmd.beginRenderPass info contents)) rest).2 := by
        simpa [replayResults] using hr
      exact ih true _ _ (by simpa [drawsPreceded] using hpre)
        (fun _ => by simp [applyCmd]) r hr2
    | draw a b c2 d =>
      have hps : seen = true ∧ drawsPreceded seen rest = true := by
        simpa [drawsPreceded, Bool.and_eq_true] using hpre
      have hr2 : r = handleDrawCall g s 0 ∨
          r ∈ (replayResults (recordCopy g (Cmd.draw a b c2 d))
            (applyCmd s (Cmd.draw a b c2 d)) rest).2 := by
        simpa [replayResults] using hr
      rcases hr2 with h1 | h2
      · rw [h1]
        exact handleDrawCall_some_ne_nullrp g s 0 (hinv hps.1)
      · exact ih seen _ _ hps.2
          (fun hs => by
            rw [applyCmd_preserves_renderPass s _
              (fun i cc he => by cases he)]
            exact hinv hs) r h2
    | drawIndexed a b c2 d e =>
      have hps : seen = true ∧ drawsPreceded seen rest = true := by
        simpa [drawsPreceded, Bool.and_eq_true] using hpre
      have hr2 : r = handleDrawCall g s a ∨
          r ∈ (replayResults (recordCopy g (Cmd.drawIndexed a b c2 d e))
            (applyCmd s (Cmd.drawIndexed a b c2 d e)) rest).2 := by
        simpa [replayResults] using hr
      rcases hr2 with h1 | h2
      · rw [h1]
        exact handleDrawCall_some_ne_nullrp g s a (hinv hps.1)
      · exact ih seen _ _ hps.2
          (fun hs => by
            rw [applyCmd_preserves_renderPass s _
              (fun i cc he => by cases he)]
            exact hinv hs) r h2
    | bindDescriptorSets bp l fs sets dyn =>
      have hr2 : r ∈ (replayResults (recordCopy g
          (Cmd.bindDescriptorSets bp l fs sets dyn)) (applyCmd s
          (Cmd.bindDescriptorSets bp l fs sets dyn)) rest).2 := by
        simpa [replayResults] using hr
      exact ih seen _ _ (by simpa [drawsPreceded] using hpre)
        (fun hs => by
          rw [applyCmd_preserves_renderPass s _
            (fun i cc he => by cases he)]
          exact hinv hs) r hr2
    | bindIndexBuffer b o t =>
      have hr2 : r ∈ (replayResults (recordCopy g
          (Cmd.bindIndexBuffer b o t)) (applyCmd s
          (Cmd.bindIndexBuffer b o t)) rest).2 := by
        simpa [replayResults] using hr
      exact ih seen _ _ (by simpa [drawsPreceded] using hpre)
        (fun hs => by
          rw [applyCmd_preserves_renderPass s _
            (fun i cc he => by cases he)]
          exact hinv hs) r hr2
    | bindPipeline bp p =>
      have hr2 : r ∈ (replayResults (recordCopy g
          (Cmd.bindPipeline bp p)) (applyCmd s
          (Cmd.bindPipeline bp p)) rest).2 := by
        simpa [replayResults] using hr
      exact ih seen _ _ (by simpa [drawsPreceded] using hpre)
        (fun hs => by
          rw [applyCmd_preserves_renderPass s _
            (fun i cc he => by cases he)]
          exact hinv hs) r hr2
    | bindVertexBuffers fb bufs offs =>
      have hr2 : r ∈ (replayResults (recordCopy g
          (Cmd.bindVertexBuffers fb bufs offs)) (applyCmd s
          (Cmd.bindVertexBuffers fb bufs offs)) rest).2 := by
        simpa [replayResults] using hr
      exact ih seen _ _ (by simpa [drawsPreceded] using hpre)
        (fun hs => by
          rw [applyCmd_preserves_renderPass s _
            (fun i cc he => by cases he)]
          exact hinv hs) r hr2
    | copyBuffer a b r2 =>
      have hr2 : r ∈ (replayResults (recordCopy g
          (Cmd.copyBuffer a b r2)) (applyCmd s
          (Cmd.copyBuffer a b r2)) rest).2 := by
        simpa [replayResults] using hr
      exact ih seen _ _ (by simpa [drawsPreceded] using hpre)
        (fun hs => by
          rw [applyCmd_preserves_renderPass s _
            (fun i cc he => by cases he)]
          exact hinv hs) r hr2

/-- Claim C10: at draw time with a graphics pipeline bound but a null
current render pass, HandleDrawCall hits the dedicated fatal assertion —
it neither skips silently nor tolerates the gap; and under the
precondition that every draw or draw-indexed record of a command-buffer
log is preceded by a begin-render-pass record, no replayed draw can ever
produce that failure: the branch is unreachable. -/
theorem c10_null_renderpass_assert :
    (∀ (g : Globals) (s : DrawCallStateTracker) (n : Nat),
       s.graphicsPipelineIsBound = true → s.currentRenderPass = none →
       handleDrawCall g s n = DrawResult.fatalNullRenderPass) ∧
    (∀ (g : Globals) (cmds : List Cmd),
       drawsPreceded false cmds = true →
       ∀ r ∈ (replayResults g initialTracker cmds).2,
         r ≠ DrawResult.fatalNullRenderPass) := by
  constructor
  · intro g s n hb hrp
    unfold handleDrawCall
    rw [if_neg (by simp [hb]), hrp]
  · intro g cmds hpre
    exact replayResults_no_nullrp cmds false g initialTracker hpre
      (fun hh => by cases hh)

/-- Claim C10 witness: a tracker with a bound pipeline and no begun render
pass hits the fatal branch; in a log whose draw follows a
begin-render-pass, the single draw outcome (a silent skip, as no pipeline
is bound there) is not that failure. -/
theorem c10_null_renderpass_assert_witness :
    handleDrawCall ({} : Globals) trackerC10 0 =
      DrawResult.fatalNullRenderPass ∧
    DrawResult.skipped ≠ DrawResult.fatalNullRenderPass :=
  ⟨c10_null_renderpass_assert.1 {} trackerC10 0 rfl rfl,
   c10_null_renderpass_assert.2 {} cmdsC10 (by decide)
     DrawResult.skipped (by decide)⟩

end GraphicsfuzzAmberScoop
